import Mathlib

/-
Verification of the GC3Pie job-backend adapter
(easybuild/tools/job/gc3pie.py).

The module is a thin adapter translating generic job requests into
GC3Pie `Application` objects, collecting them in a
`DependentTaskCollection`, and driving a GC3Pie engine in a polling
loop until the collection terminates.  The embedding below models the
adapter's own logic faithfully; the external GC3Pie engine is kept
abstract (a state plus a step function), since its code is not part of
this repository.
-/

namespace EasyBuild

/-- ASCII lower-casing of one character, as in Python `str.lower()` on
the ASCII state names used by the module. -/
def charLower (c : Char) : Char :=
  if 65 ≤ c.toNat ∧ c.toNat ≤ 90 then Char.ofNat (c.toNat + 32) else c

/-- Python `s.lower()` on an ASCII string. -/
def strLower (s : String) : String := String.mk (s.data.map charLower)

/-- Python `os.path.join` on two POSIX path components, as used by the
module (second component absolute wins; otherwise a separator is added
unless already present). -/
def pathJoin (a b : String) : String :=
  if b.data.head? = some '/' then b
  else if a.data = [] ∨ a.data.getLast? = some '/' then a ++ b
  else a ++ "/" ++ b

/-- GC3Pie run states (`gc3libs.Run.State`). -/
inductive RunState
  | NEW
  | SUBMITTED
  | RUNNING
  | STOPPED
  | TERMINATING
  | TERMINATED
  | UNKNOWN
deriving DecidableEq, Repr

/-- A gc3libs time quantity, measured in seconds. -/
structure Duration where
  seconds : Int
deriving DecidableEq, Repr

/-- `gc3libs.quantity.hours` (imported as `hr`): the one-hour unit. -/
def hr : Duration := ⟨3600⟩

/-- Python `hours*hr`: scaling a gc3libs quantity by an integer. -/
def scaleDuration (n : Int) (d : Duration) : Duration := ⟨n * d.seconds⟩

/-- The GC3Pie `Application` object constructed by `make_job`.  Optional
keyword arguments that `make_job` leaves out of `extra_args` are
modelled as `none` (the attribute is absent from the object). -/
structure Application where
  arguments : List String
  inputs : List String
  outputs : List String
  output_dir : String
  stdout : String
  join : Bool
  jobname : String
  name : String
  environment : Option (List (String × String))
  requested_walltime : Option Duration
  requested_cores : Option Int
deriving DecidableEq, Repr

/-- The adapter-owned `DependentTaskCollection`: an output directory, the
queued tasks in insertion order, and the dependency edges recorded by
`queue`. -/
structure DependentTaskCollection where
  output_dir : String
  tasks : List Application
  deps : List (Application × List Application)
deriving DecidableEq, Repr

/-- The state of a `GC3Pie` backend instance: its `self._jobs` collection. -/
structure GC3PieState where
  jobs : DependentTaskCollection
deriving DecidableEq, Repr

/-- `GC3Pie.init`: start a new list of submitted jobs, rooted at
`os.path.join(os.getcwd(), 'easybuild-jobs')`.  The ambient current
working directory is passed explicitly. -/
def GC3Pie.init (cwd : String) : GC3PieState :=
  { jobs := { output_dir := pathJoin cwd "easybuild-jobs", tasks := [], deps := [] } }

/-- Python truthiness of the optional `env_vars` dictionary: `None` and
the empty mapping are falsy. -/
def truthyEnv : Option (List (String × String)) → Bool
  | none => false
  | some l => !l.isEmpty

/-- Python truthiness of an optional integer argument: `None` and `0`
are falsy. -/
def truthyInt : Option Int → Bool
  | none => false
  | some n => n != 0

/-- `GC3Pie.make_job`: build the `extra_args` keyword dictionary (an
entry only when the corresponding argument is truthy) and construct an
`Application`.  The method reads `self._jobs.output_dir` but never
writes to `self`; mirroring Python method semantics it returns the
(unchanged) state together with the fresh handle. -/
def GC3Pie.make_job (self : GC3PieState) (script name : String)
    (env_vars : Option (List (String × String))) (hours cores : Option Int) :
    GC3PieState × Application :=
  (self,
   { arguments := ["/bin/sh", "-c", script]
     inputs := []
     outputs := []
     output_dir := pathJoin self.jobs.output_dir name
     stdout := "stdout.log"
     join := true
     jobname := name
     name := name
     environment := if truthyEnv env_vars then env_vars else none
     requested_walltime :=
       if truthyInt hours then Option.map (fun h => scaleDuration h hr) hours else none
     requested_cores := if truthyInt cores then cores else none })

/-- `GC3Pie.queue`: add a job to the collection together with its
dependency edges (`DependentTaskCollection.add`). -/
def GC3Pie.queue (self : GC3PieState) (job : Application)
    (dependencies : List Application) : GC3PieState :=
  { self with
      jobs := { self.jobs with
                  tasks := self.jobs.tasks ++ [job]
                  deps := self.jobs.deps ++ [(job, dependencies)] } }

/-- The `(override.get(s, stats[s]), s)` pairs generated by the list
comprehension in `_print_status_report`: one pair per requested state
whose live engine count is nonzero. -/
def reportItems (stats : String → Nat) (override : String → Option Nat)
    (states : List String) : List (Nat × String) :=
  (states.filter (fun s => stats s != 0)).map
    (fun s => ((override s).getD (stats s), s))

/-- The `"%d %s" % (count, s.lower())` formatting of one report item. -/
def formatItem (p : Nat × String) : String :=
  toString p.1 ++ " " ++ strLower p.2

/-- The full `"build jobs: %s"` line emitted by `_print_status_report`. -/
def statusLine (stats : String → Nat) (override : String → Option Nat)
    (states : List String) : String :=
  "build jobs: " ++ String.intercalate ", " (List.map formatItem (reportItems stats override states))

/-- The GC3Pie engine, kept abstract: the aggregate execution state of
the attached collection (`self._jobs.execution.state`) and the per-state
counts returned by `Engine.stats(only=Application)`. -/
structure Engine where
  execState : RunState
  stats : String → Nat

/-- `GC3Pie.POLL_INTERVAL`: sleep duration between polls, in seconds. -/
def POLL_INTERVAL : Nat := 30

/-- Observable events of the `complete()` loop, in program order. -/
inductive Event
  | progress
  | report (states : List String) (line : String)
  | sleep (seconds : Nat)
deriving DecidableEq, Repr

/-- The states reported inside the polling loop. -/
def loopStates : List String := ["total", "SUBMITTED", "RUNNING", "ok", "failed"]

/-- The states reported by the final status line (the default of
`_print_status_report`). -/
def finalStates : List String := ["total", "ok", "failed"]

/-- `complete()` passes no stat overrides to `_print_status_report`. -/
def noOverride : String → Option Nat := fun _ => none

/-- The `while` loop of `GC3Pie.complete` after the engine has been
created and the collection attached: while the collection state is not
TERMINATED, call `Engine.progress()`, print a status report, and sleep;
on exit print the final report.  `step` is the abstract effect of
`Engine.progress()`; `fuel` bounds the number of iterations so the
function is total, returning `none` when the bound is hit. -/
def completeLoop (step : Engine → Engine) : Nat → Engine → Option (List Event × Engine)
  | 0, e =>
    if e.execState = RunState.TERMINATED then
      some ([Event.report finalStates (statusLine e.stats noOverride finalStates)], e)
    else none
  | fuel + 1, e =>
    if e.execState = RunState.TERMINATED then
      some ([Event.report finalStates (statusLine e.stats noOverride finalStates)], e)
    else
      match completeLoop step fuel (step e) with
      | none => none
      | some (evs, ef) =>
        some (Event.progress
                :: Event.report loopStates (statusLine (step e).stats noOverride loopStates)
                :: Event.sleep POLL_INTERVAL
                :: evs,
              ef)

/-- Well-formed traces of `complete()`: zero or more iterations of
progress, report over the five loop states, sleep for the poll
interval, ending in exactly one final report over the three final
states. -/
inductive GoodTrace : List Event → Prop
  | done : ∀ line, GoodTrace [Event.report finalStates line]
  | iter : ∀ line rest, GoodTrace rest →
      GoodTrace (Event.progress :: Event.report loopStates line
                   :: Event.sleep POLL_INTERVAL :: rest)

/-- Python exceptions relevant to the module-load guard. -/
inductive PyExc
  | importError
  | other
deriving DecidableEq, Repr

/-- The `try: import gc3libs ... except ImportError:` block at module
load: on success `HAVE_GC3PIE = True`; an `ImportError` is caught and
`HAVE_GC3PIE = False`; any other exception propagates. -/
def tryImportGC3Pie : Except PyExc Unit → Except PyExc Bool
  | Except.ok _ => Except.ok true
  | Except.error PyExc.importError => Except.ok false
  | Except.error e => Except.error e

/-- `GC3Pie.USABLE = HAVE_GC3PIE`. -/
def GC3Pie.USABLE (haveGC3Pie : Bool) : Bool := haveGC3Pie

/-- C2: when none of the optional fields (environment, hours, cores) is
supplied, the handle constructed by `make_job` contains no environment,
requested-walltime, or requested-cores entry at all: the fields are
absent (`none`), not present with a zero or empty default. -/
theorem make_job_no_optionals (self : GC3PieState) (script name : String) :
    (GC3Pie.make_job self script name none none none).2.environment = none ∧
    (GC3Pie.make_job self script name none none none).2.requested_walltime = none ∧
    (GC3Pie.make_job self script name none none none).2.requested_cores = none :=
  ⟨rfl, rfl, rfl⟩

/-- C3: for every job request with a positive integer `hours = H`, the
constructed handle carries a requested walltime of exactly `H` times the
engine's one-hour unit `hr`. -/
theorem make_job_walltime (self : GC3PieState) (script name : String)
    (env_vars : Option (List (String × String))) (cores : Option Int)
    (H : Int) (hpos : 0 < H) :
    (GC3Pie.make_job self script name env_vars (some H) cores).2.requested_walltime
      = some (scaleDuration H hr) := by
  simp [GC3Pie.make_job, truthyInt, hpos.ne']

/-- Witness for C3 at `H = 2` on a concrete backend state. -/
theorem make_job_walltime_witness :
    (0 : Int) < 2 ∧
    (GC3Pie.make_job (GC3Pie.init "/home/user") "echo hi" "job1" none (some 2) none).2.requested_walltime
      = some (scaleDuration 2 hr) :=
  ⟨by decide,
   make_job_walltime (GC3Pie.init "/home/user") "echo hi" "job1" none none 2 (by decide)⟩

/-- C4: for every script and name, the handle returned by `make_job` has
execution command `['/bin/sh', '-c', script]`, empty staged input and
output file lists, stdout and stderr merged (`join = true`) into a file
named `stdout.log`, placed in the join of the collection's output
directory with the job name. -/
theorem make_job_command_and_log (self : GC3PieState) (script name : String)
    (env_vars : Option (List (String × String))) (hours cores : Option Int) :
    (GC3Pie.make_job self script name env_vars hours cores).2.arguments
        = ["/bin/sh", "-c", script] ∧
    (GC3Pie.make_job self script name env_vars hours cores).2.inputs = [] ∧
    (GC3Pie.make_job self script name env_vars hours cores).2.outputs = [] ∧
    (GC3Pie.make_job self script name env_vars hours cores).2.stdout = "stdout.log" ∧
    (GC3Pie.make_job self script name env_vars hours cores).2.join = true ∧
    (GC3Pie.make_job self script name env_vars hours cores).2.output_dir
        = pathJoin self.jobs.output_dir name :=
  ⟨rfl, rfl, rfl, rfl, rfl, rfl⟩

/-- C7: `make_job` has no side effect on the job collection: the state
returned alongside the handle is identical to the input state, so the
collection's tasks and dependency edges are unchanged; the call only
reads the collection's output directory. -/
theorem make_job_pure (self : GC3PieState) (script name : String)
    (env_vars : Option (List (String × String))) (hours cores : Option Int) :
    (GC3Pie.make_job self script name env_vars hours cores).1 = self ∧
    (GC3Pie.make_job self script name env_vars hours cores).1.jobs.tasks = self.jobs.tasks ∧
    (GC3Pie.make_job self script name env_vars hours cores).1.jobs.deps = self.jobs.deps :=
  ⟨rfl, rfl, rfl⟩

/-- C8: `init` creates a fresh, empty job collection whose output
directory is the current working directory joined with
`easybuild-jobs`, so a job named `name` made afterwards logs its merged
output as `stdout.log` under `<cwd>/easybuild-jobs/<name>`. -/
theorem init_fresh_collection (cwd script name : String) :
    (GC3Pie.init cwd).jobs.tasks = [] ∧
    (GC3Pie.init cwd).jobs.deps = [] ∧
    (GC3Pie.init cwd).jobs.output_dir = pathJoin cwd "easybuild-jobs" ∧
    (GC3Pie.make_job (GC3Pie.init cwd) script name none none none).2.output_dir
        = pathJoin (pathJoin cwd "easybuild-jobs") name ∧
    (GC3Pie.make_job (GC3Pie.init cwd) script name none none none).2.stdout = "stdout.log" :=
  ⟨rfl, rfl, rfl, rfl, rfl⟩

/-- C10: `make_job` treats falsy optional arguments exactly as omitted
ones: with `hours = 0`, `cores = 0` and an empty environment mapping the
constructed result is identical to the one produced with all optional
arguments absent (the guards test truthiness, not presence). -/
theorem make_job_falsy_optionals (self : GC3PieState) (script name : String) :
    GC3Pie.make_job self script name (some []) (some 0) (some 0)
      = GC3Pie.make_job self script name none none none :=
  rfl

/-- C9: the absence of the engine library is surfaced solely through the
boolean flag: `USABLE` is true iff the import succeeded, and the
import-failure path itself raises no exception (an `ImportError` is
caught and recorded as `HAVE_GC3PIE = False`). -/
theorem usable_iff_import_ok :
    (∀ (r : Except PyExc Unit) (h : Bool),
        tryImportGC3Pie r = Except.ok h → (GC3Pie.USABLE h = true ↔ r = Except.ok ())) ∧
    tryImportGC3Pie (Except.error PyExc.importError) = Except.ok false := by
  constructor
  · intro r h hr
    cases r with
    | ok u =>
      cases u
      simp only [tryImportGC3Pie] at hr
      cases hr
      simp [GC3Pie.USABLE]
    | error e =>
      cases e with
      | importError =>
        simp only [tryImportGC3Pie] at hr
        cases hr
        simp [GC3Pie.USABLE]
      | other =>
        simp only [tryImportGC3Pie] at hr
        cases hr
  · rfl

/-- Witness for C9 on the successful-import path. -/
theorem usable_iff_import_ok_witness :
    GC3Pie.USABLE true = true ↔ (Except.ok () : Except PyExc Unit) = Except.ok () :=
  usable_iff_import_ok.1 (Except.ok ()) true rfl

/-- Engine statistics in which every live count is zero. -/
def zeroStats : String → Nat := fun _ => 0

/-- A caller-supplied override forcing the `total` figure to 5. -/
def totalOverride : String → Option Nat := fun s => if s = "total" then some 5 else none

/-- C1 counterexample: with a live `total` count of 0 and an override of
5 for `total`, the comprehension filters on the live count, so `total`
is omitted and the emitted line is bare, refuting the claim that an
overridden-to-nonzero state is reported. -/
theorem status_report_zero_count_override_omitted :
    totalOverride "total" = some 5 ∧
    zeroStats "total" = 0 ∧
    reportItems zeroStats totalOverride ["total"] = [] ∧
    statusLine zeroStats totalOverride ["total"] = "build jobs: " :=
  ⟨rfl, rfl, rfl, rfl⟩

/-- C1 amended: a state whose live engine count is zero is always
omitted from the report, even when its override value is nonzero; for a
requested state whose live count is nonzero, the reported value is the
override value when supplied, the live count otherwise. -/
theorem status_report_filter_and_override (stats : String → Nat)
    (override : String → Option Nat) (states : List String) (s : String) :
    (stats s = 0 → ∀ v : Nat, (v, s) ∉ reportItems stats override states) ∧
    (s ∈ states → stats s ≠ 0 →
      ((override s).getD (stats s), s) ∈ reportItems stats override states) := by
  constructor
  · intro h0 v hv
    rcases List.mem_map.mp hv with ⟨t, ht, hts⟩
    have hts2 : t = s := congrArg Prod.snd hts
    have hne := (List.mem_filter.mp ht).2
    rw [hts2, h0] at hne
    simp at hne
  · intro hs hne
    exact List.mem_map.mpr ⟨s, List.mem_filter.mpr ⟨hs, by simpa using hne⟩, rfl⟩

/-- Engine statistics with 3 jobs `ok` and all other counts zero. -/
def statsW : String → Nat := fun s => if s = "ok" then 3 else 0

/-- An override forcing the `ok` figure to 7. -/
def overrideW : String → Option Nat := fun s => if s = "ok" then some 7 else none

/-- Witness for the amended C1: `failed` (live count 0) never appears in
the items; `ok` (live count 3, override 7) appears with the override
value. -/
theorem status_report_filter_and_override_witness :
    ((5 : Nat), "failed") ∉ reportItems statsW overrideW ["ok", "failed"] ∧
    ((7 : Nat), "ok") ∈ reportItems statsW overrideW ["ok", "failed"] :=
  ⟨(status_report_filter_and_override statsW overrideW ["ok", "failed"] "failed").1 rfl 5,
   (status_report_filter_and_override statsW overrideW ["ok", "failed"] "ok").2
     (by decide) (by decide)⟩

/-- C5: every terminating run of the `complete()` loop is a sequence of
iterations, each advancing the engine one step, then reporting over
exactly the five loop states, then sleeping for the poll interval,
followed on loop exit by exactly one final report over the three final
states; and the poll interval is the fixed 30 time-units. -/
theorem complete_trace_shape (step : Engine → Engine) (fuel : Nat) (e : Engine)
    (evs : List Event) (ef : Engine)
    (h : completeLoop step fuel e = some (evs, ef)) :
    POLL_INTERVAL = 30 ∧ GoodTrace evs := by
  refine ⟨rfl, ?_⟩
  induction fuel generalizing e evs ef with
  | zero =>
    unfold completeLoop at h
    split at h
    · cases h
      exact GoodTrace.done _
    · cases h
  | succ n ih =>
    unfold completeLoop at h
    split at h
    · cases h
      exact GoodTrace.done _
    · split at h
      · cases h
      · cases h
        exact GoodTrace.iter _ _ (ih _ _ _ (by assumption))

/-- A terminated engine with all statistics zero. -/
def engT : Engine := { execState := RunState.TERMINATED, stats := fun _ => 0 }

/-- Witness for C5: the loop applied to an already-terminated engine
yields the single final report. -/
theorem complete_trace_shape_witness :
    POLL_INTERVAL = 30 ∧
    GoodTrace [Event.report finalStates (statusLine engT.stats noOverride finalStates)] :=
  complete_trace_shape id 0 engT
    [Event.report finalStates (statusLine engT.stats noOverride finalStates)] engT rfl

/-- C6: the `complete()` loop never exits while the collection state
differs from TERMINATED — whenever the loop returns, the final engine
state is TERMINATED — and when the state is not TERMINATED the loop
always runs a further full iteration, whatever the statistics (failed
jobs only show up inside the reported status line, which is computed
from the post-progress statistics over the five loop states). -/
theorem complete_only_exits_terminated (step : Engine → Engine) (fuel : Nat)
    (e : Engine) (evs : List Event) (ef : Engine) :
    (completeLoop step fuel e = some (evs, ef) → ef.execState = RunState.TERMINATED) ∧
    (e.execState ≠ RunState.TERMINATED → completeLoop step fuel e = some (evs, ef) →
      ∃ rest, evs = Event.progress
          :: Event.report loopStates (statusLine (step e).stats noOverride loopStates)
          :: Event.sleep POLL_INTERVAL :: rest) := by
  constructor
  · intro h
    induction fuel generalizing e evs ef with
    | zero =>
      unfold completeLoop at h
      split at h
      · cases h
        assumption
      · cases h
    | succ n ih =>
      unfold completeLoop at h
      split at h
      · cases h
        assumption
      · split at h
        · cases h
        · cases h
          exact ih _ _ _ (by assumption)
  · intro hne h
    cases fuel with
    | zero =>
      unfold completeLoop at h
      rw [if_neg hne] at h
      cases h
    | succ n =>
      unfold completeLoop at h
      rw [if_neg hne] at h
      split at h
      · cases h
      · cases h
        exact ⟨_, rfl⟩

/-- A fresh engine with all statistics zero. -/
def engNew : Engine := { execState := RunState.NEW, stats := fun _ => 0 }

/-- An abstract progress step that terminates the collection at once. -/
def stepT : Engine → Engine := fun _ => engT

/-- Witness for C6 on a one-iteration run: the final state is
TERMINATED, and the non-terminated initial state forces a full
iteration at the head of the trace. -/
theorem complete_only_exits_terminated_witness :
    engT.execState = RunState.TERMINATED ∧
    ∃ rest,
      [Event.progress,
       Event.report loopStates (statusLine (stepT engNew).stats noOverride loopStates),
       Event.sleep POLL_INTERVAL,
       Event.report finalStates (statusLine engT.stats noOverride finalStates)]
        = Event.progress
            :: Event.report loopStates (statusLine (stepT engNew).stats noOverride loopStates)
            :: Event.sleep POLL_INTERVAL :: rest :=
  ⟨(complete_only_exits_terminated stepT 1 engNew
      [Event.progress,
       Event.report loopStates (statusLine (stepT engNew).stats noOverride loopStates),
       Event.sleep POLL_INTERVAL,
       Event.report finalStates (statusLine engT.stats noOverride finalStates)] engT).1 rfl,
   (complete_only_exits_terminated stepT 1 engNew
      [Event.progress,
       Event.report loopStates (statusLine (stepT engNew).stats noOverride loopStates),
       Event.sleep POLL_INTERVAL,
       Event.report finalStates (statusLine engT.stats noOverride finalStates)] engT).2
     (by simp [engNew]) rfl⟩

end EasyBuild
